import Mathlib

/-!
Shallow embedding of the capture-session controller in
src/static/js/face-recognition.js (the window.FaceRecognition object).

Modelling conventions:
* The controller object's mutable fields and the DOM elements it writes
  (button disabled flags and labels, status texts, the hidden image field,
  the preview, the recognition-result panel) are fields of `FRState`.
* Side effects that leave the controller (toasts, console logging, HTTP
  requests, sounds) are emitted as an `Event` list; each operation is a
  function `FRState → FRState × List Event`.
* JavaScript timers are modelled explicitly: `setInterval` registers a fresh
  id in `activeTimers` and returns it, `clearInterval t` removes `t`.  The
  source keeps only the last id in `this.detectionInterval`, so an id
  overwritten there stays in `activeTimers` (the timer keeps firing).
* Asynchronous axios calls are split into a synchronous start (everything up
  to issuing the request; the request is recorded in `pending` together with
  the data its closure captured) and completion handlers (the then/catch and
  finally callbacks), which may be applied in any order later.
* The canvas pixel contents (the drawing overlay) are not modelled; the
  claims under study do not mention rendered pixels.
-/

/-- One detected face as returned by the backend detect endpoint:
bounding box plus optional recognized name (source lines 332-345). -/
structure Face where
  x : Int
  y : Int
  width : Int
  height : Int
  name : Option String
deriving DecidableEq, Repr

/-- Observable side effects leaving the controller. -/
inductive Event where
  | toast (msg : String) (level : String)
  | logError (msg : String)
  | httpPost (url : String)
  | httpGet (url : String)
  | httpDelete (url : String)
  | playSound (kind : String)
deriving DecidableEq, Repr

/-- The kind of an in-flight axios request. -/
inductive ReqKind where
  | detect
  | recognize
  | register
deriving DecidableEq, Repr

/-- An issued, not yet completed axios request, with the button label the
then/finally closures captured (`originalText` in the source). -/
structure PendingReq where
  id : Nat
  kind : ReqKind
  originalText : String
deriving DecidableEq, Repr

/-- The mutable state of window.FaceRecognition plus the DOM it writes. -/
structure FRState where
  stream : Option Nat
  isDetecting : Bool
  detectionInterval : Option Nat
  activeTimers : List Nat
  nextTimer : Nat
  nextStream : Nat
  currentFaces : List Face
  faceImageData : String
  userId : String
  photoPreview : String
  recognitionResult : String
  startCameraDisabled : Bool
  stopCameraDisabled : Bool
  startDetectionDisabled : Bool
  stopDetectionDisabled : Bool
  registerBtnDisabled : Bool
  registerBtnText : String
  recognizeBtnDisabled : Bool
  recognizeBtnText : String
  cameraStatus : String
  detectionStatus : String
  faceCount : Nat
  pending : List PendingReq
  nextReq : Nat
deriving DecidableEq, Repr

/-- State when the face page has just been initialized. -/
def initState : FRState where
  stream := none
  isDetecting := false
  detectionInterval := none
  activeTimers := []
  nextTimer := 0
  nextStream := 0
  currentFaces := []
  faceImageData := ""
  userId := ""
  photoPreview := ""
  recognitionResult := ""
  startCameraDisabled := false
  stopCameraDisabled := true
  startDetectionDisabled := false
  stopDetectionDisabled := true
  registerBtnDisabled := false
  registerBtnText := "注册人脸"
  recognizeBtnDisabled := false
  recognizeBtnText := "识别考勤"
  cameraStatus := ""
  detectionStatus := ""
  faceCount := 0
  pending := []
  nextReq := 0

/-- startCamera, success path of getUserMedia (source lines 163-184): store
the stream, update the two camera buttons and the status label.  The source
never checks whether a stream is already held, so an existing handle is
simply overwritten. -/
def startCameraSuccess (s : FRState) : FRState × List Event :=
  ({ s with stream := some s.nextStream
            nextStream := s.nextStream + 1
            startCameraDisabled := true
            stopCameraDisabled := false
            cameraStatus := "摄像头已启动" }, [])

/-- startCamera, rejection path of getUserMedia: log and toast, no state
change (source lines 177-180). -/
def startCameraFailure (s : FRState) : FRState × List Event :=
  (s, [Event.logError "无法访问摄像头", Event.toast "无法访问摄像头，请检查权限设置" "danger"])

/-- stopDetection (source lines 228-245): unconditionally clears
isDetecting, cancels the tracked interval if any, and updates the detection
buttons and status.  It does not consult the previous state, so it runs the
same way from every state. -/
def stopDetection (s : FRState) : FRState × List Event :=
  let s1 := { s with isDetecting := false }
  let s2 :=
    match s1.detectionInterval with
    | some t =>
        { s1 with detectionInterval := none
                  activeTimers := s1.activeTimers.filter (fun u => u ≠ t) }
    | none => s1
  ({ s2 with startDetectionDisabled := false
             stopDetectionDisabled := true
             detectionStatus := "检测已停止" }, [])

/-- stopCamera (source lines 187-201): only acts when a stream is held —
stops the tracks, clears the handle, calls stopDetection, updates the camera
buttons and status.  With no stream it does nothing at all. -/
def stopCamera (s : FRState) : FRState × List Event :=
  match s.stream with
  | some _ =>
      let s1 := { s with stream := none }
      let p := stopDetection s1
      ({ p.1 with startCameraDisabled := false
                  stopCameraDisabled := true
                  cameraStatus := "摄像头已停止" }, p.2)
  | none => (s, [])

/-- startDetection (source lines 204-225): fails with a warning toast when
no stream is held; otherwise sets isDetecting, updates the UI and registers
a fresh 100ms interval, overwriting this.detectionInterval.  The source
never checks isDetecting, so a second call while already detecting registers
a second timer and the previous id is lost (it stays in activeTimers). -/
def startDetection (s : FRState) : FRState × List Event :=
  match s.stream with
  | none => (s, [Event.toast "请先启动摄像头" "warning"])
  | some _ =>
      ({ s with isDetecting := true
                startDetectionDisabled := true
                stopDetectionDisabled := false
                detectionStatus := "检测中..."
                detectionInterval := some s.nextTimer
                activeTimers := s.nextTimer :: s.activeTimers
                nextTimer := s.nextTimer + 1 }, [])

/-- detectFacesWithBackend, synchronous part (source lines 306-318): draw
the current frame and POST it to the detect endpoint.  No sequence number or
timestamp is attached to the request. -/
def detectBackendStart (s : FRState) : FRState × List Event :=
  ({ s with pending := s.pending ++ [⟨s.nextReq, ReqKind.detect, ""⟩]
            nextReq := s.nextReq + 1 },
   [Event.httpPost "/api/v1/face/detect"])

/-- detectFacesWithBackend, then-handler (source lines 319-353): redraw the
overlay and store the arriving faces in currentFaces and the face counter,
unconditionally — whatever response arrives last wins. -/
def detectBackendThen (reqId : Nat) (faces : List Face) (s : FRState) :
    FRState × List Event :=
  ({ s with currentFaces := faces
            faceCount := faces.length
            pending := s.pending.filter (fun r => r.id ≠ reqId) }, [])

/-- detectFacesWithBackend, catch-handler (source lines 354-356): log only;
currentFaces and the timers are untouched. -/
def detectBackendCatch (reqId : Nat) (s : FRState) : FRState × List Event :=
  ({ s with pending := s.pending.filter (fun r => r.id ≠ reqId) },
   [Event.logError "人脸检测失败"])

/-- detectFacesWithFaceAPI (source lines 261-303), with the awaited
detection call's outcome passed in: on success redraw and store the
detections; the catch block only logs, leaving all state unchanged. -/
def detectFaceAPI (outcome : Except String (List Face)) (s : FRState) :
    FRState × List Event :=
  match outcome with
  | Except.ok faces =>
      ({ s with currentFaces := faces, faceCount := faces.length }, [])
  | Except.error e => (s, [Event.logError ("人脸检测失败: " ++ e)])

/-- The response body of the recognize endpoint (source lines 470-497). -/
structure RecognizeResult where
  success : Bool
  name : String
  employee_id : String
  action : String
  time : String
  message : String
deriving DecidableEq, Repr

/-- The spinner markup recognizeAttendance puts into its button while a
request is out (source line 464). -/
def spinnerRecognize : String :=
  "<span class=\"spinner-border spinner-border-sm me-2\"></span>识别中..."

/-- The spinner markup registerFace puts into its button (source line 410). -/
def spinnerRegister : String :=
  "<span class=\"spinner-border spinner-border-sm me-2\"></span>注册中..."

/-- The success toast of recognizeAttendance (source line 474). -/
def recognizeSuccessToastMsg (action time : String) : String :=
  "识别成功，" ++ action ++ "时间：" ++ time

/-- The innerHTML recognizeAttendance writes into the recognition-result
panel on success (source lines 479-487), with the markup abstracted to the
interpolated data. -/
def successResultHtml (name employeeId action time : String) : String :=
  "识别成功 姓名：" ++ name ++ " 工号：" ++ employeeId ++
    " 操作：" ++ action ++ " 时间：" ++ time

/-- recognizeAttendance, synchronous part (source lines 439-469): guard on
the stream, then on currentFaces being non-empty — both before any canvas
work, before the button is disabled and before the axios call — then
capture originalText, disable the button, show the spinner and POST.  No
check for an already pending request exists. -/
def recognizeAttendanceStart (s : FRState) : FRState × List Event :=
  match s.stream with
  | none => (s, [Event.toast "请先启动摄像头" "warning"])
  | some _ =>
      if s.currentFaces.length = 0 then
        (s, [Event.toast "未检测到人脸" "warning"])
      else
        ({ s with recognizeBtnDisabled := true
                  recognizeBtnText := spinnerRecognize
                  pending := s.pending ++
                    [⟨s.nextReq, ReqKind.recognize, s.recognizeBtnText⟩]
                  nextReq := s.nextReq + 1 },
         [Event.httpPost "/api/v1/face/recognize"])

/-- The originalText the closures of request `reqId` captured. -/
def capturedText (s : FRState) (reqId : Nat) : String :=
  match s.pending.find? (fun r => r.id = reqId) with
  | some r => r.originalText
  | none => ""

/-- recognizeAttendance, then-handler plus finally (source lines 470-510):
applied when the response arrives, with no check that the camera is still
running or that the session is the one that issued the request — it writes
the result panel, toasts, plays a sound, and the finally block restores the
button from the captured originalText. -/
def recognizeThen (reqId : Nat) (result : RecognizeResult) (s : FRState) :
    FRState × List Event :=
  let orig := capturedText s reqId
  let s1 := { s with pending := s.pending.filter (fun r => r.id ≠ reqId)
                     recognizeBtnDisabled := false
                     recognizeBtnText := orig }
  if result.success then
    ({ s1 with recognitionResult :=
          successResultHtml result.name result.employee_id result.action result.time },
     [Event.toast (recognizeSuccessToastMsg result.action result.time) "success",
      Event.playSound "success"])
  else
    (s1,
     [Event.toast (if result.message = "" then "识别失败" else result.message) "warning",
      Event.playSound "error"])

/-- recognizeAttendance, catch-handler plus finally (source lines 499-510):
toast the server detail or a generic message, play the error sound, restore
the button. -/
def recognizeCatch (reqId : Nat) (detail : Option String) (s : FRState) :
    FRState × List Event :=
  let orig := capturedText s reqId
  ({ s with pending := s.pending.filter (fun r => r.id ≠ reqId)
            recognizeBtnDisabled := false
            recognizeBtnText := orig },
   [Event.toast (detail.getD "人脸识别失败") "danger", Event.playSound "error"])

/-- capturePhoto (source lines 360-389): guard on the stream, then store the
current frame in the hidden field and the preview. -/
def capturePhoto (frame : String) (s : FRState) : FRState × List Event :=
  match s.stream with
  | none => (s, [Event.toast "请先启动摄像头" "warning"])
  | some _ =>
      ({ s with faceImageData := frame, photoPreview := frame },
       [Event.toast "拍照成功" "success"])

/-- registerFace, synchronous part (source lines 392-416): read the hidden
image field and the user id; an empty image or empty user id fails with a
warning toast before the button is touched and before any axios call;
otherwise capture originalText, disable the button, show the spinner, POST. -/
def registerFaceStart (s : FRState) : FRState × List Event :=
  if s.faceImageData = "" then
    (s, [Event.toast "请先拍照或上传人脸照片" "warning"])
  else if s.userId = "" then
    (s, [Event.toast "请选择用户" "warning"])
  else
    ({ s with registerBtnDisabled := true
              registerBtnText := spinnerRegister
              pending := s.pending ++
                [⟨s.nextReq, ReqKind.register, s.registerBtnText⟩]
              nextReq := s.nextReq + 1 },
     [Event.httpPost "/api/v1/face/register"])

/-- registerFace, then-handler plus finally (source lines 417-435): toast
success, clear the hidden image field and the preview, reload the roster
(a GET), and restore the button. -/
def registerThen (reqId : Nat) (s : FRState) : FRState × List Event :=
  let orig := capturedText s reqId
  ({ s with pending := s.pending.filter (fun r => r.id ≠ reqId)
            faceImageData := ""
            photoPreview := ""
            registerBtnDisabled := false
            registerBtnText := orig },
   [Event.toast "人脸注册成功" "success", Event.httpGet "/api/v1/face/data"])

/-- registerFace, catch-handler plus finally (source lines 427-435). -/
def registerCatch (reqId : Nat) (detail : Option String) (s : FRState) :
    FRState × List Event :=
  let orig := capturedText s reqId
  ({ s with pending := s.pending.filter (fun r => r.id ≠ reqId)
            registerBtnDisabled := false
            registerBtnText := orig },
   [Event.toast (detail.getD "人脸注册失败") "danger"])

/-- The lifecycle states of spec section 4.4 that the code can exhibit; the
code has no RequestInFlight state of its own (requests are tracked only by
each call's closures). -/
inductive SessionState where
  | Idle
  | CameraActive
  | Detecting
deriving DecidableEq, Repr

/-- The abstraction from controller state to the spec's lifecycle state:
no stream means Idle; with a stream, isDetecting distinguishes Detecting
from CameraActive. -/
def lifecycle (s : FRState) : SessionState :=
  match s.stream with
  | none => SessionState.Idle
  | some _ => if s.isDetecting then SessionState.Detecting else SessionState.CameraActive

/-!  Scope model for the delete-button click handler (claim C9).

renderFaceDataTable (source lines 578-612) creates the handler
function() { const faceId = this.getAttribute(...); self.deleteFaceData(faceId); }.
An identifier in its body resolves through the handler's own scope, then
renderFaceDataTable's scope, then the module/global scope.  Unlike every
other method of the file that uses self (bindEvents, loadModels,
handleImageUpload, loadFaceData, detectFacesWithBackend, ...),
renderFaceDataTable declares no const self = this, so self falls through to
the browser global, where window.self is the window object itself. -/

/-- Identifiers declared in the click handler's own scope. -/
def deleteHandlerLocals : List String := ["faceId"]

/-- Identifiers declared in renderFaceDataTable's scope: its parameter and
its local consts (including the forEach callback's parameter face and its
local row, which enclose the handler).  No self among them. -/
def renderFaceDataTableLocals : List String :=
  ["faceData", "tableBody", "face", "row"]

/-- The properties the repository's scripts assign on the window object:
utils.js lines 6 and 694, charts.js lines 6 and 551, the app script lines
6, 398 and 953, face-recognition.js lines 6 and 660.  None of them is named
deleteFaceData. -/
def windowProps : List String :=
  ["Utils", "UTILS", "Charts", "CHARTS", "App", "AttendanceSystem", "ATT",
   "FaceRecognition", "FR"]

/-- The method names of the window.FaceRecognition object literal. -/
def faceRecognitionMethods : List String :=
  ["init", "bindEvents", "loadModels", "initBackendAPI", "startCamera",
   "stopCamera", "startDetection", "stopDetection", "detectFaces",
   "detectFacesWithFaceAPI", "detectFacesWithBackend", "capturePhoto",
   "registerFace", "recognizeAttendance", "handleImageUpload",
   "loadFaceData", "renderFaceDataTable", "deleteFaceData", "playSound"]

/-- The JavaScript values the scope model distinguishes. -/
inductive JsValue where
  | undefinedVal
  | windowObj
  | faceRecognitionObj
  | localVal (name : String)
  | methodVal (name : String)
deriving DecidableEq, Repr

/-- Identifier resolution at the click handler: handler scope, then
renderFaceDataTable scope, then the global scope (the host binding
window.self, i.e. the window itself, plus the repository's assignments). -/
def resolveIdent (id : String) : JsValue :=
  if deleteHandlerLocals.contains id then JsValue.localVal id
  else if renderFaceDataTableLocals.contains id then JsValue.localVal id
  else if id = "self" then JsValue.windowObj
  else if id = "FaceRecognition" ∨ id = "FR" then JsValue.faceRecognitionObj
  else if windowProps.contains id then JsValue.localVal id
  else JsValue.undefinedVal

/-- Property access on the resolved base object. -/
def getProp (v : JsValue) (p : String) : JsValue :=
  match v with
  | JsValue.windowObj =>
      if p = "FaceRecognition" ∨ p = "FR" then JsValue.faceRecognitionObj
      else if windowProps.contains p then JsValue.localVal p
      else JsValue.undefinedVal
  | JsValue.faceRecognitionObj =>
      if faceRecognitionMethods.contains p then JsValue.methodVal p
      else JsValue.undefinedVal
  | _ => JsValue.undefinedVal

/-- Calling the looked-up value: FaceRecognition.deleteFaceData would, once
confirmed, issue the roster DELETE (source lines 615-627); calling any
non-function value raises a TypeError and nothing is sent. -/
def callAsDelete (v : JsValue) (faceId : String) : Except String (List Event) :=
  match v with
  | JsValue.methodVal n =>
      if n = "deleteFaceData" then
        Except.ok [Event.httpDelete ("/api/v1/face/data/" ++ faceId)]
      else Except.ok []
  | _ => Except.error "TypeError: self.deleteFaceData is not a function"

/-- The click handler body self.deleteFaceData(faceId), source line 609. -/
def deleteClickHandler (faceId : String) : Except String (List Event) :=
  callAsDelete (getProp (resolveIdent "self") "deleteFaceData") faceId

/-!  Concrete scenario states used by the counterexamples and witnesses. -/

/-- A face the backend detect endpoint reported. -/
def face1 : Face := ⟨10, 20, 30, 40, none⟩

/-- Bounding boxes of two consecutive frame samples. -/
def faceA : Face := ⟨1, 2, 3, 4, none⟩

/-- Second sample's detection, carrying a recognized name. -/
def faceB : Face := ⟨5, 6, 7, 8, some "李四"⟩

/-- The session after acquire succeeded and detection was started once. -/
def c1Detecting : FRState := (startDetection (startCameraSuccess initState).1).1

/-- Camera on, detection running, one face found by the last sample. -/
def c2Ready : FRState := (detectFaceAPI (Except.ok [face1]) c1Detecting).1

/-- The session while the first recognize request (id 0) is pending. -/
def c2Pending : FRState := (recognizeAttendanceStart c2Ready).1

/-- A successful recognize response. -/
def okResult : RecognizeResult := ⟨true, "张三", "E001", "上班", "09:00", ""⟩

/-- The session after release was called while request 0 was pending. -/
def c3Released : FRState := (stopCamera c2Pending).1

/-- Applying request 0's completion after the release. -/
def c3AfterCompletion : FRState × List Event := recognizeThen 0 okResult c3Released

/-- Two backend detect requests in flight: id 0 for sample N, id 1 for
sample N+1. -/
def c4Issued : FRState := (detectBackendStart (detectBackendStart c2Ready).1).1

/-- Sample N+1's response (request 1) applied first. -/
def c4NewerApplied : FRState := (detectBackendThen 1 [faceB] c4Issued).1

/-- Sample N's response (request 0) arriving and applied afterwards. -/
def c4StaleApplied : FRState := (detectBackendThen 0 [faceA] c4NewerApplied).1

/-- startDetection invoked a second time while already detecting: the timer
registered first (id 0) is no longer tracked but still active. -/
def c5DoubleStart : FRState := (startDetection c1Detecting).1

/-- Release after the double start. -/
def c5Released : FRState := (stopCamera c5DoubleStart).1

/-- A state with a captured frame but no user selected. -/
def c7NoUser : FRState := { initState with faceImageData := "data:image/jpeg;base64,AAA" }

/-- C6: recognizeAttendance invoked while the camera is running but the most
recent sample's detection result is empty fails with the no-face-detected
warning before any network call is issued; the state — in particular the
button's disabled flag and label — is left exactly as it was, so no
in-flight spinner or disabled-button state remains. -/
theorem C6_recognize_no_face (s : FRState) (d : Nat) (h : s.stream = some d)
    (hf : s.currentFaces = []) :
    recognizeAttendanceStart s = (s, [Event.toast "未检测到人脸" "warning"]) ∧
    (∀ u, Event.httpPost u ∉ (recognizeAttendanceStart s).2) ∧
    (recognizeAttendanceStart s).1.recognizeBtnDisabled = s.recognizeBtnDisabled ∧
    (recognizeAttendanceStart s).1.recognizeBtnText = s.recognizeBtnText := by
  have heq : recognizeAttendanceStart s = (s, [Event.toast "未检测到人脸" "warning"]) := by
    unfold recognizeAttendanceStart
    rw [h]
    simp [hf]
  refine ⟨heq, ?_, ?_, ?_⟩ <;> simp [heq]

/-- Witness for C6 at the state reached right after the camera starts. -/
theorem C6_recognize_no_face_witness :
    recognizeAttendanceStart (startCameraSuccess initState).1 =
      ((startCameraSuccess initState).1, [Event.toast "未检测到人脸" "warning"]) :=
  (C6_recognize_no_face (startCameraSuccess initState).1 0 rfl rfl).1

/-- C7: registerFace with an empty captured frame, or with a frame but an
empty user id, fails with the corresponding warning before any network call
is made; in either invalid case no registration request is sent and the
state is unchanged. -/
theorem C7_register_invalid_input (s : FRState) :
    (s.faceImageData = "" →
        registerFaceStart s = (s, [Event.toast "请先拍照或上传人脸照片" "warning"])) ∧
    (s.faceImageData ≠ "" → s.userId = "" →
        registerFaceStart s = (s, [Event.toast "请选择用户" "warning"])) ∧
    (s.faceImageData = "" ∨ s.userId = "" →
        (registerFaceStart s).1 = s ∧
        ∀ u, Event.httpPost u ∉ (registerFaceStart s).2) := by
  refine ⟨?_, ?_, ?_⟩
  · intro h
    simp [registerFaceStart, h]
  · intro h h2
    simp [registerFaceStart, h, h2]
  · intro h
    rcases h with h | h
    · simp [registerFaceStart, h]
    · by_cases hi : s.faceImageData = ""
      · simp [registerFaceStart, hi]
      · simp [registerFaceStart, hi, h]

/-- Witness for C7: an empty frame at the initial state, and an empty user
id with a captured frame. -/
theorem C7_register_invalid_input_witness :
    registerFaceStart initState =
      (initState, [Event.toast "请先拍照或上传人脸照片" "warning"]) ∧
    registerFaceStart c7NoUser = (c7NoUser, [Event.toast "请选择用户" "warning"]) ∧
    (registerFaceStart initState).1 = initState :=
  ⟨(C7_register_invalid_input initState).1 rfl,
   (C7_register_invalid_input c7NoUser).2.1 (by decide) rfl,
   ((C7_register_invalid_input initState).2.2 (Or.inl rfl)).1⟩

/-- C8: in every detection tick whose capability call throws (face-api path)
or whose backend request fails, the failure is only logged: the stored
detection result, the detecting flag and the timers are unchanged — the loop
keeps running — and a later successful sample replaces the stored result. -/
theorem C8_detect_failures_absorbed (s : FRState) (msg : String) (reqId : Nat)
    (fs : List Face) :
    (detectFaceAPI (Except.error msg) s).1 = s ∧
    (detectFaceAPI (Except.error msg) s).2 =
      [Event.logError ("人脸检测失败: " ++ msg)] ∧
    (detectBackendCatch reqId s).1.currentFaces = s.currentFaces ∧
    (detectBackendCatch reqId s).1.detectionInterval = s.detectionInterval ∧
    (detectBackendCatch reqId s).1.activeTimers = s.activeTimers ∧
    (detectBackendCatch reqId s).1.isDetecting = s.isDetecting ∧
    (detectBackendCatch reqId s).2 = [Event.logError "人脸检测失败"] ∧
    (detectFaceAPI (Except.ok fs) s).1.currentFaces = fs :=
  ⟨rfl, rfl, rfl, rfl, rfl, rfl, rfl, rfl⟩

/-- C9: in the click handler rendered by renderFaceDataTable the identifier
self is bound neither in the handler's scope nor in renderFaceDataTable's,
so it resolves to the browser global window.self (the window object), whose
deleteFaceData property is undefined: the call raises a TypeError,
deleteFaceData is never reached and no roster DELETE is issued.  Had self
been bound to the controller, as in the file's other handlers, the lookup
would have produced the method and the DELETE would have been reachable. -/
theorem C9_delete_unreachable (faceId : String) :
    deleteHandlerLocals.contains "self" = false ∧
    renderFaceDataTableLocals.contains "self" = false ∧
    resolveIdent "self" = JsValue.windowObj ∧
    getProp JsValue.windowObj "deleteFaceData" = JsValue.undefinedVal ∧
    deleteClickHandler faceId =
      Except.error "TypeError: self.deleteFaceData is not a function" ∧
    callAsDelete (getProp JsValue.faceRecognitionObj "deleteFaceData") faceId =
      Except.ok [Event.httpDelete ("/api/v1/face/data/" ++ faceId)] :=
  ⟨rfl, rfl, rfl, rfl, rfl, rfl⟩

/-- C10: a successfully registered frame is consumed exactly once — the
success handler clears the stored image data and the preview, so an
immediately following registerFace call, with no new capture or upload,
fails the non-empty-frame guard with the capture-first warning and sends
nothing. -/
theorem C10_register_consumes_frame (s : FRState) (reqId : Nat) :
    (registerThen reqId s).1.faceImageData = "" ∧
    (registerThen reqId s).1.photoPreview = "" ∧
    registerFaceStart (registerThen reqId s).1 =
      ((registerThen reqId s).1, [Event.toast "请先拍照或上传人脸照片" "warning"]) ∧
    (∀ u, Event.httpPost u ∉ (registerFaceStart (registerThen reqId s).1).2) := by
  have h : (registerThen reqId s).1.faceImageData = "" := rfl
  have heq : registerFaceStart (registerThen reqId s).1 =
      ((registerThen reqId s).1, [Event.toast "请先拍照或上传人脸照片" "warning"]) := by
    simp [registerFaceStart, h]
  exact ⟨rfl, rfl, heq, by simp [heq]⟩

/-- C1 counterexample: from the Detecting state, a second startDetection —
for which the spec machine has no transition — does not fail (it emits no
event at all, in particular no IllegalStateTransition) and does mutate the
session state: it registers a second 100ms timer (the state now tracks
interval 1 while timer 0 is still active). -/
theorem C1_counterexample :
    lifecycle c1Detecting = SessionState.Detecting ∧
    (startDetection c1Detecting).2 = [] ∧
    (startDetection c1Detecting).1 ≠ c1Detecting ∧
    (startDetection c1Detecting).1.activeTimers = [1, 0] ∧
    c1Detecting.activeTimers = [0] := by
  refine ⟨rfl, rfl, ?_, rfl, rfl⟩
  decide

/-- C1 (amended): the acquire/start/stop/release operations follow the
machine the code actually implements, not the strict machine of spec
section 4.4: startDetection without a stream fails with a warning toast and
leaves the state unchanged; startDetection with a stream always succeeds —
also when already Detecting, where it tracks a fresh timer while the
previously registered timer stays active; stopDetection and stopCamera are
total, never fail, and land in CameraActive (stream held) resp. Idle;
startCamera's success path always stores a fresh stream, whatever was held
before.  No operation ever reports IllegalStateTransition: the only failure
any of them can emit is the start-camera-first warning. -/
theorem C1_lifecycle_machine (s : FRState) :
    (s.stream = none →
        startDetection s = (s, [Event.toast "请先启动摄像头" "warning"])) ∧
    (∀ d, s.stream = some d →
        (startDetection s).2 = [] ∧
        lifecycle (startDetection s).1 = SessionState.Detecting ∧
        (startDetection s).1.detectionInterval = some s.nextTimer ∧
        (startDetection s).1.activeTimers = s.nextTimer :: s.activeTimers) ∧
    (stopDetection s).2 = [] ∧
    lifecycle (stopDetection s).1 =
      (match s.stream with
       | none => SessionState.Idle
       | some _ => SessionState.CameraActive) ∧
    (stopCamera s).2 = [] ∧
    lifecycle (stopCamera s).1 = SessionState.Idle ∧
    (startCameraSuccess s).2 = [] ∧
    (startCameraSuccess s).1.stream = some s.nextStream := by
  refine ⟨?_, ?_, ?_, ?_, ?_, ?_, rfl, rfl⟩
  · intro h
    unfold startDetection
    rw [h]
  · intro d h
    unfold startDetection lifecycle
    rw [h]
    simp
  · cases hd : s.detectionInterval <;> simp [stopDetection, hd]
  · cases hs : s.stream <;> cases hd : s.detectionInterval <;>
      simp [stopDetection, lifecycle, hs, hd]
  · cases hs : s.stream <;> cases hd : s.detectionInterval <;>
      simp [stopCamera, stopDetection, hs, hd]
  · cases hs : s.stream <;> cases hd : s.detectionInterval <;>
      simp [stopCamera, stopDetection, lifecycle, hs, hd]

/-- Witness for C1 (amended): the guarded failure at the initial state and a
successful start right after the camera comes up. -/
theorem C1_lifecycle_machine_witness :
    startDetection initState = (initState, [Event.toast "请先启动摄像头" "warning"]) ∧
    lifecycle (startDetection (startCameraSuccess initState).1).1 =
      SessionState.Detecting :=
  ⟨(C1_lifecycle_machine initState).1 rfl,
   ((C1_lifecycle_machine (startCameraSuccess initState).1).2.1 0 rfl).2.1⟩

/-- C2 counterexample: while recognize request 0 is pending, a second
recognizeAttendance call is not rejected — no RequestAlreadyInFlight
failure exists — and it issues a second POST to the recognize endpoint, so
two request-shaped operations are in flight at once. -/
theorem C2_counterexample :
    c2Pending.pending = [⟨0, ReqKind.recognize, "识别考勤"⟩] ∧
    (recognizeAttendanceStart c2Pending).2 =
      [Event.httpPost "/api/v1/face/recognize"] ∧
    (recognizeAttendanceStart c2Pending).1.pending =
      [⟨0, ReqKind.recognize, "识别考勤"⟩,
       ⟨1, ReqKind.recognize, spinnerRecognize⟩] :=
  ⟨rfl, rfl, rfl⟩

/-- C2 (amended): the controller has no in-flight guard: whenever the camera
is running and a face was detected, recognizeAttendance issues a POST —
also while an earlier request is still pending, so two requests can be in
flight at once and no RequestAlreadyInFlight failure is ever produced.  The
second invocation appends its own closure data and leaves every earlier
pending request's entry unchanged, and re-entry through the UI is prevented
only by the button it disables while its own request is out. -/
theorem C2_no_inflight_guard (s : FRState) (d : Nat) (h : s.stream = some d)
    (hf : s.currentFaces.length ≠ 0) :
    (recognizeAttendanceStart s).2 = [Event.httpPost "/api/v1/face/recognize"] ∧
    (recognizeAttendanceStart s).1.pending =
      s.pending ++ [⟨s.nextReq, ReqKind.recognize, s.recognizeBtnText⟩] ∧
    (recognizeAttendanceStart s).1.recognizeBtnDisabled = true := by
  unfold recognizeAttendanceStart
  rw [h]
  simp [hf]

/-- Witness for C2 (amended) at the state where request 0 is pending. -/
theorem C2_no_inflight_guard_witness :
    (recognizeAttendanceStart c2Pending).2 =
      [Event.httpPost "/api/v1/face/recognize"] :=
  (C2_no_inflight_guard c2Pending 0 rfl (by decide)).1

/-- C3 counterexample: release is called while recognize request 0 is in
flight; when the request later completes successfully, the completion is
applied, not discarded — the recognition-result panel changes and the
success toast is shown even though the stream is gone. -/
theorem C3_counterexample :
    c3Released.stream = none ∧
    c3AfterCompletion.1.recognitionResult =
      successResultHtml "张三" "E001" "上班" "09:00" ∧
    c3AfterCompletion.1.recognitionResult ≠ c3Released.recognitionResult ∧
    Event.toast (recognizeSuccessToastMsg "上班" "09:00") "success" ∈
      c3AfterCompletion.2 := by
  refine ⟨rfl, rfl, ?_, ?_⟩ <;> decide

/-- C3 (amended): the completion of a recognize request that was in flight
when release was called is applied in full, because the controller keeps no
per-acquire generation counter and the completion handler never checks the
session: even with the stream gone it writes the recognition-result panel,
shows the success toast and re-enables the button. -/
theorem C3_completion_applied_after_release (s : FRState) (reqId : Nat)
    (result : RecognizeResult) (_hrel : s.stream = none)
    (hs : result.success = true) :
    (recognizeThen reqId result s).1.recognitionResult =
      successResultHtml result.name result.employee_id result.action result.time ∧
    (recognizeThen reqId result s).1.recognizeBtnDisabled = false ∧
    Event.toast (recognizeSuccessToastMsg result.action result.time) "success" ∈
      (recognizeThen reqId result s).2 := by
  unfold recognizeThen
  simp [hs]

/-- Witness for C3 (amended) at the released state with request 0 pending. -/
theorem C3_completion_applied_after_release_witness :
    (recognizeThen 0 okResult c3Released).1.recognitionResult =
      successResultHtml okResult.name okResult.employee_id okResult.action
        okResult.time :=
  (C3_completion_applied_after_release c3Released 0 okResult rfl rfl).1

/-- C4 counterexample: with detect requests 0 (sample N) and 1 (sample N+1)
in flight, the response for sample N+1 is applied first; when the response
for sample N then arrives, it is not discarded — it overwrites the stored
result, which ends as sample N's data instead of remaining sample N+1's. -/
theorem C4_counterexample :
    c4NewerApplied.currentFaces = [faceB] ∧
    c4StaleApplied.currentFaces = [faceA] ∧
    c4StaleApplied.currentFaces ≠ [faceB] := by
  refine ⟨rfl, rfl, ?_⟩
  decide

/-- C4 (amended): detection updates are applied in network-completion order,
not sample-capture order: the then-handler stores whatever response has just
arrived, unconditionally — there are no per-sample sequence numbers — so the
stored detection result and face count are always those of the last response
to arrive, even when it belongs to an older sample. -/
theorem C4_last_arrival_wins (s : FRState) (reqId : Nat) (faces : List Face) :
    (detectBackendThen reqId faces s).1.currentFaces = faces ∧
    (detectBackendThen reqId faces s).1.faceCount = faces.length :=
  ⟨rfl, rfl⟩

/-- C5 counterexample: after acquire, start, and a second start, release is
called; it succeeds without error and clears the handle, but the detection
timer registered by the first start (id 0) is still active afterwards — the
code only cancels the interval it currently tracks, so from this state
release does not stop the Detection Loop. -/
theorem C5_counterexample :
    c5DoubleStart.activeTimers = [1, 0] ∧
    (stopCamera c5DoubleStart).2 = [] ∧
    c5Released.stream = none ∧
    c5Released.isDetecting = false ∧
    c5Released.activeTimers = [0] :=
  ⟨rfl, rfl, rfl, rfl, rfl⟩

/-- C5 (amended): stopCamera is idempotent and never errors: from any state
whose detection bookkeeping is consistent (no tracked interval without a
stream), calling it leaves no stream, no detecting flag and no tracked
interval — lifecycle Idle — and calling it twice in a row gives exactly the
end state of calling it once, with no event either time.  It stops the
Detection Loop only in the sense of cancelling the currently tracked timer:
all live timers are cancelled exactly when the tracked interval is the only
one, which a doubled startDetection violates. -/
theorem C5_release_idempotent (s : FRState)
    (hwf : s.stream = none → s.isDetecting = false ∧ s.detectionInterval = none) :
    (stopCamera (stopCamera s).1).1 = (stopCamera s).1 ∧
    (stopCamera s).2 = [] ∧
    (stopCamera (stopCamera s).1).2 = [] ∧
    (stopCamera s).1.stream = none ∧
    (stopCamera s).1.isDetecting = false ∧
    (stopCamera s).1.detectionInterval = none ∧
    lifecycle (stopCamera s).1 = SessionState.Idle ∧
    ((∀ t ∈ s.activeTimers, s.detectionInterval = some t) →
        (stopCamera s).1.activeTimers = []) := by
  have hstream : (stopCamera s).1.stream = none := by
    cases hs : s.stream <;> cases hd : s.detectionInterval <;>
      simp [stopCamera, stopDetection, hs, hd]
  have hnone : ∀ x : FRState, x.stream = none → stopCamera x = (x, []) := by
    intro x hx
    unfold stopCamera
    rw [hx]
  have hid : stopCamera (stopCamera s).1 = ((stopCamera s).1, []) :=
    hnone (stopCamera s).1 hstream
  have hev : (stopCamera s).2 = [] := by
    cases hs : s.stream <;> cases hd : s.detectionInterval <;>
      simp [stopCamera, stopDetection, hs, hd]
  refine ⟨by rw [hid], hev, by rw [hid], hstream, ?_, ?_, ?_, ?_⟩
  · cases hs : s.stream with
    | none => simpa [stopCamera, hs] using (hwf hs).1
    | some d => cases hd : s.detectionInterval <;>
        simp [stopCamera, stopDetection, hs, hd]
  · cases hs : s.stream with
    | none => simpa [stopCamera, hs] using (hwf hs).2
    | some d => cases hd : s.detectionInterval <;>
        simp [stopCamera, stopDetection, hs, hd]
  · simp [lifecycle, hstream]
  · intro hall
    cases hs : s.stream with
    | none =>
        have hnone := (hwf hs).2
        have : s.activeTimers = [] := by
          cases hat : s.activeTimers with
          | nil => rfl
          | cons a l =>
              have := hall a (by rw [hat]; exact List.mem_cons_self a l)
              rw [hnone] at this
              exact absurd this (by simp)
        simp [stopCamera, hs, this]
    | some d =>
        cases hd : s.detectionInterval with
        | none =>
            have : s.activeTimers = [] := by
              cases hat : s.activeTimers with
              | nil => rfl
              | cons a l =>
                  have := hall a (by rw [hat]; exact List.mem_cons_self a l)
                  rw [hd] at this
                  exact absurd this (by simp)
            simp [stopCamera, stopDetection, hs, hd, this]
        | some t0 =>
            simp [stopCamera, stopDetection, hs, hd]
            intro a ha
            have h2 := hall a ha
            rw [hd] at h2
            exact (Option.some.inj h2).symm

/-- Witness for C5 (amended): idempotence after the double start, and full
loop shutdown from the single-start state, where the tracked interval is the
only live timer. -/
theorem C5_release_idempotent_witness :
    (stopCamera (stopCamera c5DoubleStart).1).1 = (stopCamera c5DoubleStart).1 ∧
    (stopCamera c1Detecting).1.activeTimers = [] :=
  ⟨(C5_release_idempotent c5DoubleStart (by intro h; exact absurd h (by decide))).1,
   (C5_release_idempotent c1Detecting
      (by intro h; exact absurd h (by decide))).2.2.2.2.2.2.2 (by decide)⟩
